import Mathlib

/-!
# Verification of the tracery control plane and sidecar filter

Shallow embedding of the Go sources of the tracery repository
(`control-plane/main.go`, `control-plane/freeze_coordinator.go`,
`envoy-filter/main.go`).  Maps (`map[string]T` in Go) are embedded as
functions `String → Option T` (`none` = key absent); the breakpoint
registry, which the `/check` handler iterates over, is embedded as an
association list.  Stateful methods become pure functions from state to
state (plus their results and broadcast events).
-/

namespace Tracery

/-- Update a function-backed map at one key (Go `m[k] = v` / `delete(m, k)`
when `v = none`). -/
def fset {α : Type} (m : String → Option α) (k : String) (v : Option α) :
    String → Option α :=
  fun q => if q = k then v else m q

/-- Go `strings.Contains` on character lists: does `needle` occur as a
contiguous run inside `hay`?  (`strings.Contains(s, "")` is `true`.) -/
def listContainsSub (needle : List Char) : List Char → Bool
  | [] => needle.isEmpty
  | c :: rest => needle.isPrefixOf (c :: rest) || listContainsSub needle rest

/-- Go `strings.Contains(hay, needle)`. -/
def goContains (hay needle : String) : Bool :=
  listContainsSub needle.data hay.data

/-- Go `strings.HasPrefix(s, p)`. -/
def goStartsWith (s p : String) : Bool :=
  p.data.isPrefixOf s.data

/-- Go `strings.TrimPrefix(s, p)` in the case the prefix is present:
drop the first `p.length` characters. -/
def goTrimStart (s p : String) : String :=
  String.mk (s.data.drop p.data.length)

/-! ## Freeze coordinator (`control-plane/freeze_coordinator.go`, current
draft, lines 281-368): a set of frozen trace ids plus pending release
overrides. -/

/-- State of `FreezeCoordinator`: `frozenTraces map[string]bool` and
`releaseOverrides map[string]string`. -/
structure FreezeCoordinatorState where
  frozenTraces : String → Option Bool
  releaseOverrides : String → Option String

/-- `NewFreezeCoordinator`: both maps start empty. -/
def emptyFC : FreezeCoordinatorState :=
  { frozenTraces := fun _ => none, releaseOverrides := fun _ => none }

/-- `IsTraceFrozen`: Go map lookup with zero-value default `false`. -/
def IsTraceFrozen (fc : FreezeCoordinatorState) (traceID : String) : Bool :=
  (fc.frozenTraces traceID).getD false

/-- A broadcast freeze lifecycle event `(traceID, status)` as emitted by
`BroadcastFreezeEvent`. -/
abbrev FreezeEvent := String × String

/-- `InitiateFreeze` (current draft): unconditionally records the trace as
frozen, broadcasts a `frozen` event and returns no error.  The `services`
and `breakpointID` arguments are only logged. -/
def InitiateFreeze (fc : FreezeCoordinatorState) (traceID : String)
    (_services : List String) (_breakpointID : String) :
    FreezeCoordinatorState × List FreezeEvent × Option String :=
  ({ fc with frozenTraces := fset fc.frozenTraces traceID (some true) },
   [(traceID, "frozen")], none)

/-- `ReleaseFreeze traceID override`: when the trace is present in
`frozenTraces` it is deleted, a non-empty override is stored and a
`released` event broadcast; otherwise nothing happens.  The returned
error is `nil` in every branch. -/
def ReleaseFreeze (fc : FreezeCoordinatorState) (traceID override : String) :
    FreezeCoordinatorState × List FreezeEvent × Option String :=
  match fc.frozenTraces traceID with
  | some _ =>
      ({ frozenTraces := fset fc.frozenTraces traceID none,
         releaseOverrides :=
           if override ≠ "" then fset fc.releaseOverrides traceID (some override)
           else fc.releaseOverrides },
       [(traceID, "released")], none)
  | none => (fc, [], none)

/-- `PopOverride`: read with zero-value default `""`; a non-empty value is
deleted from the map before being returned. -/
def PopOverride (fc : FreezeCoordinatorState) (traceID : String) :
    String × FreezeCoordinatorState :=
  let val := (fc.releaseOverrides traceID).getD ""
  if val ≠ "" then
    (val, { fc with releaseOverrides := fset fc.releaseOverrides traceID none })
  else (val, fc)

/-- Modelled from the spec: `IsTraceReleased` is called by the `/check`
handler (`control-plane/main.go` line 68) but its definition is missing from
the sources.  Per spec §4.5 the handler skips breakpoint matching for a
trace that "has a pending release override", so a trace counts as released
exactly when a release override is awaiting pickup. -/
def IsTraceReleased (fc : FreezeCoordinatorState) (traceID : String) : Bool :=
  (fc.releaseOverrides traceID).getD "" ≠ ""

/-- `TraceFreeze` record; fields that a construction site omits get the Go
zero value (`0`, `""`, `[]`). -/
structure TraceFreeze where
  TraceID : String
  Services : List String
  State : String
  PreparedAt : Nat
  FrozenAt : Nat
  ReleasedAt : Nat
  BreakPointID : String
  Timeout : Nat
deriving DecidableEq

/-- `FreezeCoordinator.GetFreezeStatus` (current draft): for a frozen trace
it builds a live `TraceFreeze` with state `frozen`, services `["all"]` and
`FrozenAt = time.Now()` (passed here as `now`); every other field keeps its
zero value.  An absent trace yields an error, embedded as `none`. -/
def GetFreezeStatusFC (fc : FreezeCoordinatorState) (traceID : String)
    (now : Nat) : Option TraceFreeze :=
  match fc.frozenTraces traceID with
  | some _ =>
      some { TraceID := traceID, Services := ["all"], State := "frozen",
             PreparedAt := 0, FrozenAt := now, ReleasedAt := 0,
             BreakPointID := "", Timeout := 0 }
  | none => none

/-! ## JSON flattening and keyspace construction
(`control-plane/main.go`, `flattenJSON` lines 27-51 and the `/check`
handler's searchable-data construction, lines 72-108). -/

/-- Decoded JSON value.  Go decodes numbers as `float64` and renders them
with `fmt.Sprintf("%v", v)`; the embedding carries the rendered string. -/
inductive Jval where
  | str (s : String)
  | num (rendered : String)
  | bool (b : Bool)
  | obj (fields : List (String × Jval))
  | arr (elems : List Jval)
  | null

mutual

/-- `flattenJSON(data, prefix, result)`: scalars insert `prefix → value`,
objects extend the dotted path, arrays use numeric indices, and the
untreated case (`null`) inserts nothing. -/
def flattenJSON : Jval → String → List (String × String)
  | .obj fields, pre => flattenFields fields pre
  | .str s, pre => [(pre, s)]
  | .num r, pre => [(pre, r)]
  | .bool b, pre => [(pre, if b then "true" else "false")]
  | .arr elems, pre => flattenElems elems pre 0
  | .null, _ => []

/-- Object fields: `fullKey = k` when the prefix is empty, else
`prefix + "." + k`. -/
def flattenFields : List (String × Jval) → String → List (String × String)
  | [], _ => []
  | (k, v) :: rest, pre =>
      flattenJSON v (if pre = "" then k else pre ++ "." ++ k) ++
        flattenFields rest pre

/-- Array elements: `fullKey = fmt.Sprintf("%s.%d", prefix, i)`. -/
def flattenElems : List Jval → String → Nat → List (String × String)
  | [], _, _ => []
  | v :: rest, pre, i =>
      flattenJSON v (pre ++ "." ++ toString i) ++ flattenElems rest pre (i + 1)

end

/-- Go `strings.ToLower` restricted to its ASCII action (header names are
ASCII). -/
def goToLower (s : String) : String := String.mk (s.data.map Char.toLower)

/-- The header pass inserts the short key only `if _, exists :=
searchableData[cleanKey]; !exists`. -/
def setIfAbsent (m : String → Option String) (k v : String) :
    String → Option String :=
  match m k with
  | some _ => m
  | none => fset m k (some v)

/-- One iteration of the header loop: lower-case the name; when it carries
the `x-orig-` marker, write the strict `header.<clean>` key and the short
`<clean>` key (the latter only when absent). -/
def processHeader (m : String → Option String) (kv : String × String) :
    String → Option String :=
  let k := goToLower kv.1
  if goStartsWith k "x-orig-" then
    let cleanKey := goTrimStart k "x-orig-"
    setIfAbsent (fset m ("header." ++ cleanKey) (some kv.2)) cleanKey kv.2
  else m

/-- Part A of the `/check` handler: process all headers into an empty map. -/
def processHeaders (headers : List (String × String)) : String → Option String :=
  headers.foldl processHeader (fun _ => none)

/-- Part B: each flattened body leaf writes the strict `body.<path>` key and
then the short `<path>` key, both unconditionally. -/
def applyBodyLeaf (m : String → Option String) (kv : String × String) :
    String → Option String :=
  fset (fset m ("body." ++ kv.1) (some kv.2)) kv.1 (some kv.2)

/-- The full searchable-data map: headers first, then (when the body decodes
as a JSON object) every flattened leaf. -/
def buildSearchable (headers : List (String × String)) (body : Option Jval) :
    String → Option String :=
  let m := processHeaders headers
  match body with
  | some j => (flattenJSON j "").foldl applyBodyLeaf m
  | none => m

/-! ## Breakpoint registry and matcher (`control-plane/main.go`). -/

/-- `BreakPoint` record (lines 194-201). -/
structure BreakPoint where
  ID : String
  ServiceName : String
  EndPoint : String
  Conditions : List (String × String)
  Enabled : Bool
  CreatedAt : Nat
deriving DecidableEq

/-- `breakPoints map[string]*BreakPoint`, embedded as an association list so
the `/check` loop can iterate its values. -/
abbrev Registry := List (String × BreakPoint)

/-- Go map insert `m[id] = bp`. -/
def registryInsert (bps : Registry) (id : String) (bp : BreakPoint) : Registry :=
  (id, bp) :: bps.filter (fun p => p.1 != id)

/-- Go map lookup. -/
def registryLookup (bps : Registry) (id : String) : Option BreakPoint :=
  (bps.find? (fun p => p.1 == id)).map Prod.snd

/-- Go `delete(m, id)`. -/
def registryDelete (bps : Registry) (id : String) : Registry :=
  bps.filter (fun p => p.1 != id)

/-- `RegisterBreakPointResponse`. -/
structure RegisterBreakPointResponse where
  BreakpointId : String
  Success : Bool
  RespMessage : String
deriving DecidableEq

/-- `RegisterBreakpoint` (lines 232-257): a fresh uuid `bpID` and
`time.Now()` are oracle inputs; the stored record always has
`Enabled: true`. -/
def RegisterBreakpoint (bps : Registry) (bpID serviceName endpoint : String)
    (conds : List (String × String)) (now : Nat) :
    Registry × RegisterBreakPointResponse :=
  (registryInsert bps bpID
     { ID := bpID, ServiceName := serviceName, EndPoint := endpoint,
       Conditions := conds, Enabled := true, CreatedAt := now },
   { BreakpointId := bpID, Success := true,
     RespMessage := "Breakpoint registered at " ++ serviceName ++ endpoint })

/-- `DeleteBreakPointResponse`. -/
structure DeleteBreakPointResponse where
  Success : Bool
  RespMessage : String
deriving DecidableEq

/-- `DeleteBreakPoint` (lines 279-298): an absent id returns a structured
not-found response and mutates nothing. -/
def DeleteBreakPoint (bps : Registry) (id : String) :
    Registry × DeleteBreakPointResponse :=
  match registryLookup bps id with
  | none => (bps, { Success := false, RespMessage := "Breakpoint not found" })
  | some _ =>
      (registryDelete bps id,
       { Success := true, RespMessage := "Breakpoint deleted" })

/-- One condition pair matches when the key exists in the searchable data
and the value is exactly the expected string (`!exists || actualVal !=
expectedVal` fails the breakpoint). -/
def condsMatch (conds : List (String × String)) (data : String → Option String) :
    Bool :=
  conds.all fun kv =>
    match data kv.1 with
    | some actual => actual == kv.2
    | none => false

/-- The `/check` breakpoint loop body (lines 112-135): service equality,
`strings.Contains(endpoint, bp.EndPoint)` and all conditions.  Note the
loop does not consult `bp.Enabled`. -/
def matchesBp (bp : BreakPoint) (service endpoint : String)
    (data : String → Option String) : Bool :=
  bp.ServiceName == service && goContains endpoint bp.EndPoint &&
    condsMatch bp.Conditions data

/-! ## The `/check` handler and the freeze RPC surface. -/

/-- JSON reply of `/check`. -/
structure FreezeResponse where
  Action : String
  OverrideBody : String
deriving DecidableEq

/-- The `/check` handler (lines 56-145).  When the trace is neither frozen
nor released and the service is non-empty, the searchable map is built and
the first matching breakpoint initiates a freeze; the reply is `freeze` for
a frozen trace and otherwise `allow` carrying `PopOverride`'s result. -/
def checkHandler (bps : Registry) (fc : FreezeCoordinatorState)
    (traceID service endpoint : String) (headers : List (String × String))
    (body : Option Jval) : FreezeCoordinatorState × FreezeResponse :=
  let isFrozen := IsTraceFrozen fc traceID
  let isReleased := IsTraceReleased fc traceID
  let step :=
    if !isFrozen && !isReleased && service != "" then
      let searchableData := buildSearchable headers body
      match (bps.map Prod.snd).find?
          (fun bp => matchesBp bp service endpoint searchableData) with
      | some bp => ((InitiateFreeze fc traceID [service] bp.ID).1, true)
      | none => (fc, isFrozen)
    else (fc, isFrozen)
  if step.2 then (step.1, { Action := "freeze", OverrideBody := "" })
  else
    let pop := PopOverride step.1 traceID
    (pop.2, { Action := "allow", OverrideBody := pop.1 })

/-- `FreezeTraceResponse`. -/
structure FreezeTraceResponse where
  Success : Bool
  RespMessage : String
  State : String
deriving DecidableEq

/-- `FreezeTrace` RPC (lines 422-444): default service list, then
`InitiateFreeze`; an error becomes `success=false/state=failed`, otherwise
`success=true/"Freeze initiated"/state=preparing`. -/
def FreezeTrace (fc : FreezeCoordinatorState) (traceId : String)
    (services : List String) : FreezeCoordinatorState × FreezeTraceResponse :=
  let svcs := if services.isEmpty then ["service-a", "service-b", "service-c"]
              else services
  match InitiateFreeze fc traceId svcs "manual" with
  | (fc2, _, some msg) =>
      (fc2, { Success := false, RespMessage := msg, State := "failed" })
  | (fc2, _, none) =>
      (fc2, { Success := true, RespMessage := "Freeze initiated",
              State := "preparing" })

/-- `ReleaseTraceResponse`. -/
structure ReleaseTraceResponse where
  Success : Bool
  RespMessage : String
deriving DecidableEq

/-- `ReleaseTrace` RPC (lines 447-462). -/
def ReleaseTrace (fc : FreezeCoordinatorState) (traceId overrideBody : String) :
    FreezeCoordinatorState × ReleaseTraceResponse :=
  match ReleaseFreeze fc traceId overrideBody with
  | (fc2, _, some msg) => (fc2, { Success := false, RespMessage := msg })
  | (fc2, _, none) => (fc2, { Success := true, RespMessage := "Trace released" })

/-- `GetFreezeStatusResponse`. -/
structure GetFreezeStatusResponse where
  TraceId : String
  State : String
  Services : List String
  FrozenAt : Nat
  BreakpointId : String
deriving DecidableEq

/-- `GetFreezeStatus` RPC (lines 465-481): a coordinator error becomes the
structured `not_found` state. -/
def GetFreezeStatus (fc : FreezeCoordinatorState) (traceId : String)
    (now : Nat) : GetFreezeStatusResponse :=
  match GetFreezeStatusFC fc traceId now with
  | none =>
      { TraceId := traceId, State := "not_found", Services := [],
        FrozenAt := 0, BreakpointId := "" }
  | some fz =>
      { TraceId := fz.TraceID, State := fz.State, Services := fz.Services,
        FrozenAt := fz.FrozenAt, BreakpointId := fz.BreakPointID }

/-! ## Snapshot store (`/snapshot` handler, lines 147-168). -/

/-- `pb.SnapshotData` as carried by `POST /snapshot`. -/
structure SnapshotData where
  TraceId : String
  ServiceName : String
  Method : String
  Body : String
deriving DecidableEq

/-- The `/snapshot` handler: non-POST → 405, undecodable body → 400, both
without touching the store; otherwise `cp.snapshots[snap.TraceId] = &snap`
(an unconditional overwrite). -/
def snapshotHandler (snaps : String → Option SnapshotData) (methodIsPost : Bool)
    (decoded : Option SnapshotData) : (String → Option SnapshotData) × Nat :=
  if !methodIsPost then (snaps, 405)
  else
    match decoded with
    | none => (snaps, 400)
    | some snap => (fset snaps snap.TraceId (some snap), 200)

/-! ## Coordinator and registry transition systems. -/

/-- Every state-mutating operation of the current freeze coordinator. -/
inductive CoordOp where
  | initiate (traceID : String) (services : List String) (breakpointID : String)
  | release (traceID : String) (override : String)
  | pop (traceID : String)
deriving DecidableEq

/-- Effect of one coordinator operation on the state. -/
def applyCoordOp (fc : FreezeCoordinatorState) : CoordOp → FreezeCoordinatorState
  | .initiate t svcs bid => (InitiateFreeze fc t svcs bid).1
  | .release t ov => (ReleaseFreeze fc t ov).1
  | .pop t => (PopOverride fc t).2

/-- Run a sequence of coordinator operations. -/
def runCoordOps (ops : List CoordOp) (fc : FreezeCoordinatorState) :
    FreezeCoordinatorState :=
  ops.foldl applyCoordOp fc

/-- Every RPC operation that can touch the breakpoint registry.  The fresh
uuid and the timestamp of a registration are oracle inputs. -/
inductive RegistryOp where
  | register (id serviceName endpoint : String)
      (conds : List (String × String)) (now : Nat)
  | delete (id : String)
  | list
deriving DecidableEq

/-- Effect of one registry operation (`ListBreakpoints` only reads). -/
def applyRegistryOp (bps : Registry) : RegistryOp → Registry
  | .register id svc ep conds now =>
      (RegisterBreakpoint bps id svc ep conds now).1
  | .delete id => (DeleteBreakPoint bps id).1
  | .list => bps

/-- The registry obtained by running a sequence of operations from the
empty initial registry of `NewControlPlaneServer`. -/
def runRegistryOps (ops : List RegistryOp) : Registry :=
  ops.foldl applyRegistryOp []

/-- A registry state is reachable when some operation sequence produces it. -/
def RegistryReachable (bps : Registry) : Prop :=
  ∃ ops : List RegistryOp, bps = runRegistryOps ops

/-! ## Sidecar intercept filter (`envoy-filter/main.go`, final draft,
lines 435-671). -/

/-- The decoded `/check` response as seen through `jsonparser.GetString`:
`none` for a field that is missing or not a string. -/
structure CheckRespBody where
  action : Option String
  overrideBody : Option String
deriving DecidableEq

/-- Outcome of `OnCheckResponse` for the suspended request: either it is
resumed (optionally with a body override applied), or the filter polls the
control plane again (recording whether a snapshot was sent just now and the
new value of the `snapshotSent` flag). -/
inductive FilterStep where
  | resumed (overrideApplied : Option String)
  | polling (sentSnapshotNow : Bool) (snapshotSent : Bool)
deriving DecidableEq

/-- `OnCheckResponse` (lines 572-614).  A failed body read or a missing
`action` field resumes immediately.  `action == "freeze"` sends the
snapshot when not yet sent and re-issues the check call; anything else
applies a non-empty `override_body` and resumes. -/
def OnCheckResponse (fetch : Option CheckRespBody) (snapshotSent : Bool) :
    FilterStep :=
  match fetch with
  | none => .resumed none
  | some b =>
    match b.action with
    | none => .resumed none
    | some a =>
      if a == "freeze" then .polling (!snapshotSent) true
      else
        match b.overrideBody with
        | some ov => if ov != "" then .resumed (some ov) else .resumed none
        | none => .resumed none

/-- Whether `proxywasm.DispatchHttpCall` managed to enqueue the call. -/
inductive DispatchResult where
  | enqueued
  | failed
deriving DecidableEq

/-- Tail of `callControlPlane` (lines 564-569): on a dispatch error the
filter logs, resumes the request and returns `false`; otherwise it returns
`true` and the caller pauses.  Result: `(returnedTrue, resumedNow)`. -/
def callControlPlaneResult : DispatchResult → Bool × Bool
  | .enqueued => (true, false)
  | .failed => (false, true)

/-- `extractTraceID` (lines 652-657): only the `traceparent` header is
consulted; a value of at least 35 bytes yields `val[3:35]`, anything else
yields the empty id. -/
def extractTraceID (headers : String → Option String) : String :=
  match headers "traceparent" with
  | some val =>
      if 35 ≤ val.data.length then String.mk ((val.data.drop 3).take 32)
      else ""
  | none => ""

/-- `types.Action` of a filter callback. -/
inductive FilterAct where
  | ActionContinue
  | ActionPause
deriving DecidableEq

/-- `OnHttpRequestHeaders` (lines 475-505), reduced to its control flow: an
empty trace id continues untouched; with a trace id and `endOfStream` the
check call is dispatched and the request pauses unless dispatch fails.  The
second component records whether a `/check` dispatch was attempted. -/
def OnHttpRequestHeaders (headers : String → Option String)
    (endOfStream : Bool) (dispatch : DispatchResult) : FilterAct × Bool :=
  let tid := extractTraceID headers
  if tid == "" then (.ActionContinue, false)
  else if endOfStream then
    if (callControlPlaneResult dispatch).1 then (.ActionPause, true)
    else (.ActionContinue, true)
  else (.ActionContinue, false)

/-- `OnHttpRequestBody` (lines 507-523): an empty trace id continues;
partial bodies buffer; the complete body dispatches the check call. -/
def OnHttpRequestBody (traceID : String) (endOfStream : Bool)
    (dispatch : DispatchResult) : FilterAct × Bool :=
  if traceID == "" then (.ActionContinue, false)
  else if !endOfStream then (.ActionPause, false)
  else if (callControlPlaneResult dispatch).1 then (.ActionPause, true)
  else (.ActionContinue, true)

/-- The body of a `/check` response whose action is `freeze`. -/
def freezeBody : CheckRespBody := { action := some "freeze", overrideBody := none }

/-- Number of snapshots sent while `OnCheckResponse` processes `n`
consecutive `freeze` responses starting from flag state `sent`. -/
def pollFreezeSends : Nat → Bool → Nat
  | 0, _ => 0
  | n + 1, sent =>
    match OnCheckResponse (some freezeBody) sent with
    | .polling sentNow newSent => (if sentNow then 1 else 0) + pollFreezeSends n newSent
    | .resumed _ => 0

/-! ## Concrete inputs used by counterexamples and witnesses -/

/-- A request carrying only the vendor header `x-b3-traceid`. -/
def b3OnlyHeaders : String → Option String :=
  fun h => if h = "x-b3-traceid" then some "80f198ee56343ba864fe8b2a57d3eff7" else none

/-- A first snapshot stored for trace `t`. -/
def snapA : SnapshotData :=
  { TraceId := "t", ServiceName := "service-a", Method := "POST /order", Body := "{}" }

/-- A later snapshot posted for the same trace `t`. -/
def snapB : SnapshotData :=
  { TraceId := "t", ServiceName := "service-b", Method := "POST /pay", Body := "{}" }

/-- Operation sequence used by the C10 witness: one registration, one
delete of an unknown id, one list. -/
def opsW : List RegistryOp :=
  [RegistryOp.register "bp-1" "service-a" "/order" [("amount", "999")] 5,
   RegistryOp.delete "unknown", RegistryOp.list]

/-- Breakpoint used by the C4 witness. -/
def bpOrder : BreakPoint :=
  { ID := "bp-1", ServiceName := "localhost:10001", EndPoint := "/order",
    Conditions := [("body.amount", "999")], Enabled := true, CreatedAt := 0 }

/-! ## Helper lemmas -/

theorem fset_same {α : Type} (m : String → Option α) (k : String) (v : Option α) :
    fset m k v k = v := by
  simp [fset]

theorem fset_other {α : Type} (m : String → Option α) {k q : String} (v : Option α)
    (h : q ≠ k) : fset m k v q = m q := by
  simp [fset, h]

theorem string_append_left_cancel {p a b : String} (h : p ++ a = p ++ b) : a = b := by
  have hd : (p ++ a).data = (p ++ b).data := by rw [h]
  rw [String.data_append, String.data_append] at hd
  exact String.ext (List.append_cancel_left hd)

theorem string_append_ne_self {p a : String} (hp : p.data ≠ []) : p ++ a ≠ a := by
  intro h
  have hd : (p ++ a).data.length = a.data.length := by rw [h]
  rw [String.data_append, List.length_append] at hd
  have : p.data.length = 0 := by omega
  exact hp (List.length_eq_zero.mp this)

/-! ## C1 — double freeze -/

/-- C1 (counterexample): with `trace-1` already frozen, a second
`FreezeTrace` for `trace-1` reports `success=true / "Freeze initiated"`,
not the claimed `success=false` with an "already frozen" message: the
current `InitiateFreeze` performs no already-exists check. -/
theorem C1_second_freeze_counterexample :
    IsTraceFrozen (InitiateFreeze emptyFC "trace-1" ["service-a"] "manual").1 "trace-1"
      = true ∧
    (FreezeTrace (InitiateFreeze emptyFC "trace-1" ["service-a"] "manual").1 "trace-1" []).2
      = { Success := true, RespMessage := "Freeze initiated", State := "preparing" } := by
  constructor <;> decide

/-- C1 (amended): a second `InitiateFreeze` for an already-frozen trace
silently succeeds: it returns no error, `FreezeTrace` answers
`success=true / "Freeze initiated" / state=preparing`, and the coordinator
state is unchanged (the trace simply stays frozen). -/
theorem C1_second_freeze_amended (fc : FreezeCoordinatorState) (t : String)
    (svcs : List String) (h : fc.frozenTraces t = some true) :
    (FreezeTrace fc t svcs).2
      = { Success := true, RespMessage := "Freeze initiated", State := "preparing" } ∧
    (FreezeTrace fc t svcs).1.frozenTraces = fc.frozenTraces ∧
    (FreezeTrace fc t svcs).1.releaseOverrides = fc.releaseOverrides ∧
    (InitiateFreeze fc t svcs "manual").2.2 = none := by
  refine ⟨rfl, ?_, rfl, rfl⟩
  funext q
  by_cases hq : q = t
  · subst hq
    simp [FreezeTrace, InitiateFreeze, fset_same, h]
  · simp [FreezeTrace, InitiateFreeze, fset, hq]

/-- C1 (witness for the amended theorem), at the state where `trace-1` is
already frozen. -/
theorem C1_second_freeze_amended_witness :
    (InitiateFreeze emptyFC "trace-1" ["service-a"] "manual").1.frozenTraces "trace-1"
      = some true ∧
    (FreezeTrace (InitiateFreeze emptyFC "trace-1" ["service-a"] "manual").1 "trace-1"
        ["service-b"]).2
      = { Success := true, RespMessage := "Freeze initiated", State := "preparing" } :=
  ⟨by decide,
   (C1_second_freeze_amended (InitiateFreeze emptyFC "trace-1" ["service-a"] "manual").1
      "trace-1" ["service-b"] (by decide)).1⟩

/-! ## C2 — fail-open on malformed check responses -/

/-- C2: any malformed `/check` response — unreadable body, or a body whose
`action` field is missing/undecodable — makes `OnCheckResponse` resume the
suspended request immediately, and a `/check` dispatch that fails to
enqueue makes `callControlPlane` resume it as well; no malformed
control-plane response leaves a request suspended. -/
theorem C2_check_fail_open :
    (∀ sent, OnCheckResponse none sent = .resumed none) ∧
    (∀ b sent, b.action = none → OnCheckResponse (some b) sent = .resumed none) ∧
    callControlPlaneResult .failed = (false, true) := by
  refine ⟨fun _ => rfl, fun b sent h => ?_, rfl⟩
  simp [OnCheckResponse, h]

/-- C2 (witness): a response missing its `action` field resumes at once. -/
theorem C2_check_fail_open_witness :
    ({ action := none, overrideBody := some "x" } : CheckRespBody).action = none ∧
    OnCheckResponse (some { action := none, overrideBody := some "x" }) false
      = .resumed none :=
  ⟨rfl, C2_check_fail_open.2.1 { action := none, overrideBody := some "x" } false rfl⟩

/-! ## C5 — trace-id extraction -/

/-- C5 (counterexample): the sidecar's `extractTraceID` ignores the vendor
header `x-b3-traceid` entirely — a request with a B3 trace id and no
`traceparent` yields the empty id instead of the claimed fallback. -/
theorem C5_vendor_header_counterexample :
    b3OnlyHeaders "x-b3-traceid" = some "80f198ee56343ba864fe8b2a57d3eff7" ∧
    extractTraceID b3OnlyHeaders = "" := by
  constructor <;> decide

/-- C5 (amended): the sidecar extracts the trace id solely from the W3C
`traceparent` header, taking the 32 characters at positions 3..34 of a
value at least 35 characters long; `x-b3-traceid` and `x-trace-id` are
never consulted.  If `traceparent` is absent or too short, the extracted
id is empty and the request bypasses interception entirely: both request
callbacks return `ActionContinue` without dispatching any `/check` call. -/
theorem C5_traceparent_only_amended (headers : String → Option String) :
    (headers "traceparent" = none → extractTraceID headers = "") ∧
    (∀ v, headers "traceparent" = some v → v.length < 35 →
      extractTraceID headers = "") ∧
    (∀ v, headers "traceparent" = some v → 35 ≤ v.length →
      extractTraceID headers = String.mk ((v.data.drop 3).take 32)) ∧
    (extractTraceID headers = "" → ∀ eos d,
      OnHttpRequestHeaders headers eos d = (.ActionContinue, false) ∧
      OnHttpRequestBody (extractTraceID headers) eos d = (.ActionContinue, false)) := by
  refine ⟨fun h => by simp [extractTraceID, h], fun v hv hlen => ?_, fun v hv hlen => ?_,
    fun h eos d => ⟨?_, ?_⟩⟩
  · simp [extractTraceID, hv, Nat.not_le.mpr hlen]
  · simp [extractTraceID, hv, hlen]
  · simp [OnHttpRequestHeaders, h]
  · simp [OnHttpRequestBody, h]

/-- C5 (witness): with only a B3 header present the extractor yields the
empty id and both callbacks continue without a dispatch. -/
theorem C5_traceparent_only_amended_witness :
    extractTraceID b3OnlyHeaders = "" ∧
    OnHttpRequestHeaders b3OnlyHeaders true .enqueued = (.ActionContinue, false) ∧
    OnHttpRequestBody (extractTraceID b3OnlyHeaders) true .enqueued
      = (.ActionContinue, false) :=
  ⟨by decide,
   ((C5_traceparent_only_amended b3OnlyHeaders).2.2.2 (by decide) true .enqueued).1,
   ((C5_traceparent_only_amended b3OnlyHeaders).2.2.2 (by decide) true .enqueued).2⟩

/-! ## C6 — freeze timeout -/

/-- C6 (counterexample): the freeze created for `trace-1` by the current
`InitiateFreeze` carries no timeout — its status record reports
`Timeout = 0` — so there is no expiry that could auto-release it. -/
theorem C6_timeout_counterexample :
    (GetFreezeStatusFC (InitiateFreeze emptyFC "trace-1" ["service-a"] "bp-1").1
        "trace-1" 0).isSome = true ∧
    (GetFreezeStatusFC (InitiateFreeze emptyFC "trace-1" ["service-a"] "bp-1").1
        "trace-1" 0).map (fun z => z.Timeout) = some 0 := by
  constructor <;> decide

/-- A frozen trace stays frozen across any operation sequence that contains
no explicit release for it. -/
theorem runCoordOps_preserves_frozen (ops : List CoordOp) (t : String) :
    ∀ fc : FreezeCoordinatorState, fc.frozenTraces t = some true →
      (∀ ov, CoordOp.release t ov ∉ ops) →
      (runCoordOps ops fc).frozenTraces t = some true := by
  induction ops with
  | nil => exact fun fc hfz _ => hfz
  | cons op rest ih =>
      intro fc hfz hno
      have hrest : ∀ ov, CoordOp.release t ov ∉ rest := by
        intro ov hmem
        exact hno ov (List.mem_cons_of_mem op hmem)
      have hstep : (applyCoordOp fc op).frozenTraces t = some true := by
        cases op with
        | initiate u svcs bid =>
            by_cases hu : t = u
            · subst hu
              simp [applyCoordOp, InitiateFreeze, fset_same]
            · simpa [applyCoordOp, InitiateFreeze, fset, hu] using hfz
        | release u ov =>
            have hu : t ≠ u := by
              intro hequ
              exact hno ov (by simp [hequ])
            cases hru : fc.frozenTraces u with
            | none => simpa [applyCoordOp, ReleaseFreeze, hru] using hfz
            | some b => simpa [applyCoordOp, ReleaseFreeze, hru, fset, hu] using hfz
        | pop u =>
            simp only [applyCoordOp, PopOverride]
            by_cases hval : ((fc.releaseOverrides u).getD "") ≠ ""
            · simpa [hval] using hfz
            · simpa [hval] using hfz
      simpa [runCoordOps, List.foldl_cons] using ih (applyCoordOp fc op) hstep hrest

/-- C6 (amended): in the current coordinator a freeze carries no timeout
(its status record reports `Timeout = 0`) and is never auto-released: under
any sequence of coordinator operations that contains no explicit
`ReleaseFreeze` for the trace, a frozen trace remains frozen. -/
theorem C6_no_auto_release_amended (fc : FreezeCoordinatorState) (t : String)
    (now : Nat) (ops : List CoordOp) (hfz : fc.frozenTraces t = some true)
    (hno : ∀ ov, CoordOp.release t ov ∉ ops) :
    (runCoordOps ops fc).frozenTraces t = some true ∧
    IsTraceFrozen (runCoordOps ops fc) t = true ∧
    (GetFreezeStatusFC fc t now).map (fun z => z.Timeout) = some 0 := by
  have hrun := runCoordOps_preserves_frozen ops t fc hfz hno
  exact ⟨hrun, by simp [IsTraceFrozen, hrun], by simp [GetFreezeStatusFC, hfz]⟩

/-- C6 (witness): a freeze survives an unrelated freeze, a pop of its own
trace and the release of a different trace. -/
theorem C6_no_auto_release_amended_witness :
    (InitiateFreeze emptyFC "trace-1" ["service-a"] "bp-1").1.frozenTraces "trace-1"
      = some true ∧
    IsTraceFrozen
      (runCoordOps
        [CoordOp.initiate "trace-2" [] "m", CoordOp.pop "trace-1",
         CoordOp.release "trace-2" ""]
        (InitiateFreeze emptyFC "trace-1" ["service-a"] "bp-1").1) "trace-1" = true :=
  ⟨by decide,
   (C6_no_auto_release_amended (InitiateFreeze emptyFC "trace-1" ["service-a"] "bp-1").1
      "trace-1" 0
      [CoordOp.initiate "trace-2" [] "m", CoordOp.pop "trace-1",
       CoordOp.release "trace-2" ""]
      (by decide)
      (by
        intro ov
        simp)).2.1⟩

/-! ## C7 — network snapshot storage -/

/-- C7 (counterexample): with `snapA` already stored for trace `t`, a later
`POST /snapshot` carrying `snapB` for the same trace id replaces the stored
record — the handler overwrites unconditionally, so the first write does
not win. -/
theorem C7_first_write_wins_counterexample :
    snapB ≠ snapA ∧
    (snapshotHandler (fset (fun _ => none) "t" (some snapA)) true (some snapB)).1 "t"
      = some snapB := by
  constructor <;> decide

/-- C7 (amended): the store keeps at most one network snapshot per trace id,
but a later `POST /snapshot` for the same trace id overwrites the stored
record (last write wins); rejected requests (wrong method, undecodable
body) leave the store untouched, and the sidecar's `snapshotSent` flag
makes a single request's freeze-poll loop send at most one snapshot. -/
theorem C7_last_write_wins_amended (snaps : String → Option SnapshotData)
    (snap : SnapshotData) (t : String) (h : t ≠ snap.TraceId) :
    (snapshotHandler snaps true (some snap)).1 snap.TraceId = some snap ∧
    (snapshotHandler snaps true (some snap)).1 t = snaps t ∧
    (snapshotHandler snaps false (some snap)).1 = snaps ∧
    (snapshotHandler snaps true none).1 = snaps ∧
    (∀ n, pollFreezeSends n false ≤ 1) ∧
    (∀ n, pollFreezeSends n true = 0) := by
  have hsent : ∀ n, pollFreezeSends n true = 0 := by
    intro n
    induction n with
    | zero => rfl
    | succ k ih => simpa [pollFreezeSends, OnCheckResponse, freezeBody] using ih
  refine ⟨by simp [snapshotHandler, fset_same], by simp [snapshotHandler, fset, h],
    rfl, rfl, fun n => ?_, hsent⟩
  cases n with
  | zero => simp [pollFreezeSends]
  | succ k => simp [pollFreezeSends, OnCheckResponse, freezeBody, hsent k]

/-- C7 (witness): storing `snapA` does not disturb trace `u`, and five
consecutive freeze responses send exactly one snapshot. -/
theorem C7_last_write_wins_amended_witness :
    ("u" : String) ≠ snapA.TraceId ∧
    (snapshotHandler (fun _ => none) true (some snapA)).1 snapA.TraceId = some snapA ∧
    pollFreezeSends 5 false ≤ 1 :=
  ⟨by decide,
   (C7_last_write_wins_amended (fun _ => none) snapA "u" (by decide)).1,
   (C7_last_write_wins_amended (fun _ => none) snapA "u" (by decide)).2.2.2.2.1 5⟩

/-! ## C9 — structured not-found results -/

/-- C9 (counterexample): releasing an absent freeze is not a structured
not-found failure — `ReleaseTrace` on the empty coordinator reports
`success=true / "Trace released"`. -/
theorem C9_release_absent_counterexample :
    emptyFC.frozenTraces "trace-1" = none ∧
    (ReleaseTrace emptyFC "trace-1" "").2
      = { Success := true, RespMessage := "Trace released" } := by
  constructor <;> decide

/-- C9 (amended): deleting an absent breakpoint and querying the freeze
status of an absent trace return structured not-found results
(`success=false / "Breakpoint not found"`, state `"not_found"`) without
mutating any state; releasing an absent freeze also mutates nothing and
raises no transport-level error, but it reports `success=true /
"Trace released"` rather than a not-found failure. -/
theorem C9_not_found_amended (bps : Registry) (id : String)
    (fc : FreezeCoordinatorState) (t ov : String) (now : Nat)
    (hbp : registryLookup bps id = none) (hfz : fc.frozenTraces t = none) :
    DeleteBreakPoint bps id
      = (bps, { Success := false, RespMessage := "Breakpoint not found" }) ∧
    GetFreezeStatus fc t now
      = { TraceId := t, State := "not_found", Services := [], FrozenAt := 0,
          BreakpointId := "" } ∧
    ReleaseTrace fc t ov = (fc, { Success := true, RespMessage := "Trace released" }) := by
  refine ⟨by simp [DeleteBreakPoint, hbp], by simp [GetFreezeStatus, GetFreezeStatusFC, hfz],
    by simp [ReleaseTrace, ReleaseFreeze, hfz]⟩

/-- C9 (witness): the three absent-target operations on empty states. -/
theorem C9_not_found_amended_witness :
    registryLookup [] "bp-1" = none ∧
    emptyFC.frozenTraces "trace-1" = none ∧
    DeleteBreakPoint [] "bp-1"
      = ([], { Success := false, RespMessage := "Breakpoint not found" }) ∧
    GetFreezeStatus emptyFC "trace-1" 0
      = { TraceId := "trace-1", State := "not_found", Services := [], FrozenAt := 0,
          BreakpointId := "" } :=
  ⟨by decide, by decide,
   (C9_not_found_amended [] "bp-1" emptyFC "trace-1" "" 0 (by decide) (by decide)).1,
   (C9_not_found_amended [] "bp-1" emptyFC "trace-1" "" 0 (by decide) (by decide)).2.1⟩

/-! ## C10 — every registered breakpoint is enabled -/

/-- Registration stores `Enabled: true` and no operation flips the flag, so
starting from an all-enabled registry every reachable registry is
all-enabled. -/
theorem registryOps_all_enabled (ops : List RegistryOp) :
    ∀ bps : Registry, (∀ p ∈ bps, p.2.Enabled = true) →
      ∀ p ∈ ops.foldl applyRegistryOp bps, p.2.Enabled = true := by
  induction ops with
  | nil => intro bps h; simpa using h
  | cons op rest ih =>
      intro bps h
      have hstep : ∀ p ∈ applyRegistryOp bps op, p.2.Enabled = true := by
        cases op with
        | register id svc ep conds now =>
            intro p hp
            simp only [applyRegistryOp, RegisterBreakpoint, registryInsert,
              List.mem_cons] at hp
            rcases hp with hp | hp
            · subst hp; rfl
            · exact h p (List.mem_of_mem_filter hp)
        | delete id =>
            intro p hp
            cases hl : registryLookup bps id with
            | none =>
                rw [applyRegistryOp] at hp
                simp only [DeleteBreakPoint, hl] at hp
                exact h p hp
            | some bp =>
                rw [applyRegistryOp] at hp
                simp only [DeleteBreakPoint, hl, registryDelete] at hp
                exact h p (List.mem_of_mem_filter hp)
        | list => exact h
      simpa [List.foldl_cons] using ih (applyRegistryOp bps op) hstep

/-- Matching ignores a flag that is `true` on every list member. -/
theorem any_enabled_irrelevant (l : List BreakPoint)
    (h : ∀ bp ∈ l, bp.Enabled = true) (service endpoint : String)
    (data : String → Option String) :
    l.any (fun bp => matchesBp bp service endpoint data) =
      l.any (fun bp => bp.Enabled && matchesBp bp service endpoint data) := by
  induction l with
  | nil => rfl
  | cons bp rest ih =>
      have hbp : bp.Enabled = true := h bp (List.mem_cons_self bp rest)
      have hrest : ∀ b ∈ rest, b.Enabled = true :=
        fun b hb => h b (List.mem_cons_of_mem bp hb)
      simp [List.any_cons, hbp, ih hrest]

/-- C10: in every reachable registry state every stored breakpoint has
`Enabled = true` (registration hard-codes the flag and no operation clears
it), so the `/check` matcher — which does not consult the flag — behaves
identically to a matcher that does. -/
theorem C10_breakpoints_always_enabled (bps : Registry)
    (h : RegistryReachable bps) :
    (∀ p ∈ bps, p.2.Enabled = true) ∧
    (∀ service endpoint data,
      (bps.map Prod.snd).any (fun bp => matchesBp bp service endpoint data) =
        (bps.map Prod.snd).any
          (fun bp => bp.Enabled && matchesBp bp service endpoint data)) := by
  obtain ⟨ops, rfl⟩ := h
  have hen : ∀ p ∈ runRegistryOps ops, p.2.Enabled = true :=
    registryOps_all_enabled ops [] (by simp)
  refine ⟨hen, fun service endpoint data => ?_⟩
  refine any_enabled_irrelevant _ ?_ service endpoint data
  intro bp hbp
  obtain ⟨p, hpmem, rfl⟩ := List.mem_map.mp hbp
  exact hen p hpmem

/-- C10 (witness): the registry reached by `opsW` is all-enabled and the
matcher agrees with its flag-checking variant on it. -/
theorem C10_breakpoints_always_enabled_witness :
    RegistryReachable (runRegistryOps opsW) ∧
    ((runRegistryOps opsW).map Prod.snd).any
        (fun bp => matchesBp bp "service-a" "/api/order/1" (buildSearchable [] none)) =
      ((runRegistryOps opsW).map Prod.snd).any
        (fun bp => bp.Enabled &&
          matchesBp bp "service-a" "/api/order/1" (buildSearchable [] none)) :=
  ⟨⟨opsW, rfl⟩,
   (C10_breakpoints_always_enabled (runRegistryOps opsW) ⟨opsW, rfl⟩).2
     "service-a" "/api/order/1" (buildSearchable [] none)⟩

/-! ## C3 — release override is delivered exactly once -/

/-- C3: after `ReleaseFreeze t ov` with a non-empty override from a state
where `t` is frozen, the first `/check` for `t` answers
`action=allow, override_body=ov` (the pending override suppresses
breakpoint matching), the override is gone from the state afterwards, and
every subsequent `PopOverride t` returns the empty string and leaves the
state unchanged. -/
theorem C3_override_pop_once (bps : Registry) (fc : FreezeCoordinatorState)
    (t ov service endpoint : String) (headers : List (String × String))
    (body : Option Jval) (hfz : (fc.frozenTraces t).isSome = true)
    (hov : ov ≠ "") :
    (checkHandler bps (ReleaseFreeze fc t ov).1 t service endpoint headers body).2
      = { Action := "allow", OverrideBody := ov } ∧
    (checkHandler bps (ReleaseFreeze fc t ov).1 t service endpoint headers
        body).1.releaseOverrides t = none ∧
    PopOverride
        (checkHandler bps (ReleaseFreeze fc t ov).1 t service endpoint headers body).1 t
      = ("",
         (checkHandler bps (ReleaseFreeze fc t ov).1 t service endpoint headers body).1) := by
  obtain ⟨b, hb⟩ := Option.isSome_iff_exists.mp hfz
  have h1 : (ReleaseFreeze fc t ov).1.frozenTraces t = none := by
    simp [ReleaseFreeze, hb, fset_same]
  have h2 : (ReleaseFreeze fc t ov).1.releaseOverrides t = some ov := by
    simp [ReleaseFreeze, hb, hov, fset_same]
  refine ⟨?_, ?_, ?_⟩ <;>
    simp [checkHandler, IsTraceFrozen, IsTraceReleased, h1, h2, hov, PopOverride,
      fset_same]

/-- C3 (witness): freeze `trace-1`, release it with override `FIXED`; the
first `/check` delivers the override and the next pop is empty. -/
theorem C3_override_pop_once_witness :
    ((InitiateFreeze emptyFC "trace-1" ["service-a"] "m").1.frozenTraces
        "trace-1").isSome = true ∧
    (checkHandler []
        (ReleaseFreeze (InitiateFreeze emptyFC "trace-1" ["service-a"] "m").1
          "trace-1" "FIXED").1
        "trace-1" "service-a" "/order" [] none).2
      = { Action := "allow", OverrideBody := "FIXED" } :=
  ⟨by decide,
   (C3_override_pop_once [] (InitiateFreeze emptyFC "trace-1" ["service-a"] "m").1
      "trace-1" "FIXED" "service-a" "/order" [] none (by decide) (by decide)).1⟩

/-! ## C4 — breakpoint matching semantics of `/check` -/

/-- C4: for a query whose trace is neither frozen nor released and whose
service is non-empty, the `/check` handler decides `freeze` exactly when
some registered breakpoint — all of which are enabled in reachable states —
has the query's service, an endpoint that is a substring of the query's
endpoint, and conditions that all match the built keyspace; in particular a
breakpoint endpoint `/order` matches a request to `/api/order/123`. -/
theorem C4_breakpoint_matching (bps : Registry) (fc : FreezeCoordinatorState)
    (t service endpoint : String) (headers : List (String × String))
    (body : Option Jval) (hfz : IsTraceFrozen fc t = false)
    (hrel : IsTraceReleased fc t = false) (hsvc : service ≠ "")
    (hen : ∀ p ∈ bps, p.2.Enabled = true) :
    ((checkHandler bps fc t service endpoint headers body).2.Action = "freeze" ↔
      ∃ p ∈ bps, p.2.Enabled = true ∧ p.2.ServiceName = service ∧
        goContains endpoint p.2.EndPoint = true ∧
        condsMatch p.2.Conditions (buildSearchable headers body) = true) ∧
    goContains "/api/order/123" "/order" = true := by
  refine ⟨?_, by decide⟩
  rcases hfind : (bps.map Prod.snd).find?
      (fun bp => matchesBp bp service endpoint (buildSearchable headers body)) with _ | bp
  · have haction :
        (checkHandler bps fc t service endpoint headers body).2.Action = "allow" := by
      simp [checkHandler, hfz, hrel, hsvc, hfind, PopOverride]
    constructor
    · intro hact
      rw [haction] at hact
      exact absurd hact (by decide)
    · rintro ⟨p, hpmem, _, hS, hC, hM⟩
      have hmatch : matchesBp p.2 service endpoint (buildSearchable headers body) = true := by
        simp [matchesBp, hS, hC, hM]
      have hnone := List.find?_eq_none.mp hfind p.2 (List.mem_map_of_mem Prod.snd hpmem)
      exact absurd hmatch (by simpa using hnone)
  · have haction :
        (checkHandler bps fc t service endpoint headers body).2.Action = "freeze" := by
      simp [checkHandler, hfz, hrel, hsvc, hfind]
    refine ⟨fun _ => ?_, fun _ => haction⟩
    have hmem := List.mem_of_find?_eq_some hfind
    have hpred := List.find?_some hfind
    obtain ⟨p, hpmem, rfl⟩ := List.mem_map.mp hmem
    have hm : p.2.ServiceName = service ∧
        goContains endpoint p.2.EndPoint = true ∧
        condsMatch p.2.Conditions (buildSearchable headers body) = true := by
      simpa [matchesBp, Bool.and_eq_true, and_assoc] using hpred
    exact ⟨p, hpmem, hen p hpmem, hm.1, hm.2.1, hm.2.2⟩

/-- C4 (witness): on an idle trace, a breakpoint on `/order` with condition
`body.amount = 999` decides the match of a `/api/order/123` request with
body `{"amount":"999"}`. -/
theorem C4_breakpoint_matching_witness :
    IsTraceFrozen emptyFC "t" = false ∧
    IsTraceReleased emptyFC "t" = false ∧
    (("localhost:10001" : String) ≠ "") ∧
    (((checkHandler [("bp-1", bpOrder)] emptyFC "t" "localhost:10001" "/api/order/123"
          [] (some (.obj [("amount", Jval.str "999")]))).2.Action = "freeze" ↔
        ∃ p ∈ [("bp-1", bpOrder)], p.2.Enabled = true ∧
          p.2.ServiceName = "localhost:10001" ∧
          goContains "/api/order/123" p.2.EndPoint = true ∧
          condsMatch p.2.Conditions
            (buildSearchable [] (some (.obj [("amount", Jval.str "999")]))) = true) ∧
      goContains "/api/order/123" "/order" = true) :=
  ⟨by decide, by decide, by decide,
   C4_breakpoint_matching [("bp-1", bpOrder)] emptyFC "t" "localhost:10001"
     "/api/order/123" [] (some (.obj [("amount", Jval.str "999")]))
     (by decide) (by decide) (by decide) (by decide)⟩

/-! ## C8 — the body wins a colliding short key -/

theorem body_marker_ne (a : String) : "body." ++ a ≠ a :=
  string_append_ne_self (by decide)

theorem body_marker_inj {a b : String} (h : "body." ++ a = "body." ++ b) : a = b :=
  string_append_left_cancel h

theorem applyBodyLeaf_other (m : String → Option String) (kv : String × String)
    {q : String} (h1 : q ≠ kv.1) (h2 : q ≠ "body." ++ kv.1) :
    applyBodyLeaf m kv q = m q := by
  simp [applyBodyLeaf, fset, h1, h2]

/-- The body fold leaves keys it never writes untouched. -/
theorem foldl_applyBodyLeaf_skip (leaves : List (String × String)) :
    ∀ (m : String → Option String) (q : String),
      (∀ kv ∈ leaves, q ≠ kv.1 ∧ q ≠ "body." ++ kv.1) →
      leaves.foldl applyBodyLeaf m q = m q := by
  induction leaves with
  | nil => intro m q _; rfl
  | cons kv rest ih =>
      intro m q h
      have hkv := h kv (List.mem_cons_self kv rest)
      have hrest : ∀ p ∈ rest, q ≠ p.1 ∧ q ≠ "body." ++ p.1 :=
        fun p hp => h p (List.mem_cons_of_mem kv hp)
      rw [List.foldl_cons, ih (applyBodyLeaf m kv) q hrest,
        applyBodyLeaf_other m kv hkv.1 hkv.2]

/-- Looking up a leaf's short key and its `body.`-qualified key after the
body fold returns that leaf's value, for any starting map, provided the
leaf keys are duplicate-free and no leaf key is the `body.`-qualification
of another. -/
theorem foldl_applyBodyLeaf_lookup (leaves : List (String × String)) :
    ∀ (m : String → Option String) (k v : String), (k, v) ∈ leaves →
      (leaves.map Prod.fst).Nodup →
      (∀ q ∈ leaves.map Prod.fst, ("body." ++ q) ∉ leaves.map Prod.fst) →
      leaves.foldl applyBodyLeaf m k = some v ∧
        leaves.foldl applyBodyLeaf m ("body." ++ k) = some v := by
  induction leaves with
  | nil => intro m k v hmem; cases hmem
  | cons kv rest ih =>
      intro m k v hmem hnd hb
      have hkhead : k ∈ (kv :: rest).map Prod.fst ∨ True := Or.inr trivial
      rcases List.mem_cons.mp hmem with heq | hmem'
      · -- the head leaf is (k, v)
        have hk1 : kv.1 = k := by rw [← heq]
        have hk2 : kv.2 = v := by rw [← heq]
        have hnd2 : (kv.1 :: rest.map Prod.fst).Nodup := by
          simpa only [List.map_cons] using hnd
        have hknotin : k ∉ rest.map Prod.fst := by
          rw [← hk1]
          exact (List.nodup_cons.mp hnd2).1
        have hkfull : k ∈ (kv :: rest).map Prod.fst := by
          simp [hk1]
        have hk_rest : ∀ p ∈ rest, k ≠ p.1 ∧ k ≠ "body." ++ p.1 := by
          intro p hp
          constructor
          · intro hc
            exact hknotin (by rw [hc]; exact List.mem_map_of_mem Prod.fst hp)
          · intro hc
            have hp1 : p.1 ∈ (kv :: rest).map Prod.fst :=
              List.mem_cons_of_mem kv.1 (by simpa using List.mem_map_of_mem Prod.fst hp)
            exact hb p.1 hp1 (by rw [← hc]; exact hkfull)
        have hbk_rest : ∀ p ∈ rest, ("body." ++ k) ≠ p.1 ∧
            ("body." ++ k) ≠ "body." ++ p.1 := by
          intro p hp
          constructor
          · intro hc
            have hp1 : p.1 ∈ (kv :: rest).map Prod.fst :=
              List.mem_cons_of_mem kv.1 (by simpa using List.mem_map_of_mem Prod.fst hp)
            rw [← hc] at hp1
            exact hb k hkfull hp1
          · intro hc
            have : k = p.1 := body_marker_inj hc
            exact hknotin (by rw [this]; exact List.mem_map_of_mem Prod.fst hp)
        rw [List.foldl_cons]
        constructor
        · rw [foldl_applyBodyLeaf_skip rest (applyBodyLeaf m kv) k hk_rest]
          simp [applyBodyLeaf, fset, hk1, hk2]
        · rw [foldl_applyBodyLeaf_skip rest (applyBodyLeaf m kv) ("body." ++ k) hbk_rest]
          simp [applyBodyLeaf, fset, hk1, hk2, body_marker_ne k]
      · -- the leaf sits in the tail
        have hnd2 : (kv.1 :: rest.map Prod.fst).Nodup := by
          simpa only [List.map_cons] using hnd
        have hnd' : (rest.map Prod.fst).Nodup := (List.nodup_cons.mp hnd2).2
        have hb' : ∀ q ∈ rest.map Prod.fst, ("body." ++ q) ∉ rest.map Prod.fst := by
          intro q hq hcq
          have hqfull : q ∈ (kv :: rest).map Prod.fst :=
            List.mem_cons_of_mem kv.1 (by simpa using hq)
          have hcqfull : ("body." ++ q) ∈ (kv :: rest).map Prod.fst :=
            List.mem_cons_of_mem kv.1 (by simpa using hcq)
          exact hb q hqfull hcqfull
        rw [List.foldl_cons]
        exact ih (applyBodyLeaf m kv) k v hmem' hnd' hb'

/-- C8: every flattened body leaf `(k, v)` is what the built keyspace
returns at both the short key `k` and the strict key `body.k`, for every
header list — the body pass overwrites unconditionally, so a body leaf
beats any header-derived short entry; and the header pass itself writes
its short key only when that key is still absent. -/
theorem C8_body_wins_short_key (headers : List (String × String)) (j : Jval)
    (k v : String) (hmem : (k, v) ∈ flattenJSON j "")
    (hnd : ((flattenJSON j "").map Prod.fst).Nodup)
    (hb : ∀ q ∈ (flattenJSON j "").map Prod.fst,
      ("body." ++ q) ∉ (flattenJSON j "").map Prod.fst) :
    buildSearchable headers (some j) k = some v ∧
    buildSearchable headers (some j) ("body." ++ k) = some v ∧
    (∀ (m : String → Option String) (kv : String × String) (w : String),
      goStartsWith (goToLower kv.1) "x-orig-" = true →
      m (goTrimStart (goToLower kv.1) "x-orig-") = some w →
      processHeader m kv (goTrimStart (goToLower kv.1) "x-orig-") = some w) := by
  have hlook := foldl_applyBodyLeaf_lookup (flattenJSON j "") (processHeaders headers)
    k v hmem hnd hb
  refine ⟨by simpa [buildSearchable] using hlook.1,
    by simpa [buildSearchable] using hlook.2, ?_⟩
  intro m kv w hpre hw
  have hne : goTrimStart (goToLower kv.1) "x-orig-" ≠
      "header." ++ goTrimStart (goToLower kv.1) "x-orig-" :=
    fun hc => string_append_ne_self (p := "header.") (by decide) hc.symm
  have hm1 : fset m ("header." ++ goTrimStart (goToLower kv.1) "x-orig-") (some kv.2)
      (goTrimStart (goToLower kv.1) "x-orig-") = some w := by
    rw [fset_other m (some kv.2) hne]
    exact hw
  simp [processHeader, hpre, setIfAbsent, hm1]

/-- C8 (witness): with header `X-Orig-Amount: 5` and body
`{"amount":"999"}`, the short key `amount` resolves to the body value
`999`, and `body.amount` does as well. -/
theorem C8_body_wins_short_key_witness :
    ("amount", "999") ∈ flattenJSON (.obj [("amount", Jval.str "999")]) "" ∧
    buildSearchable [("X-Orig-Amount", "5")]
        (some (.obj [("amount", Jval.str "999")])) "amount" = some "999" ∧
    buildSearchable [("X-Orig-Amount", "5")]
        (some (.obj [("amount", Jval.str "999")])) ("body." ++ "amount") = some "999" ∧
    buildSearchable [("X-Orig-Amount", "5")]
        (some (.obj [("amount", Jval.str "999")])) "header.amount" = some "5" :=
  ⟨by decide,
   (C8_body_wins_short_key [("X-Orig-Amount", "5")] (.obj [("amount", Jval.str "999")])
      "amount" "999" (by decide) (by decide) (by decide)).1,
   (C8_body_wins_short_key [("X-Orig-Amount", "5")] (.obj [("amount", Jval.str "999")])
      "amount" "999" (by decide) (by decide) (by decide)).2.1,
   by decide⟩

end Tracery
